import Mathlib

/-!
Verification of the Galaxy quota API controller
(src/lib/galaxy/webapps/galaxy/api/quotas.py).

The file shallowly embeds the two controller surfaces of that module:
the typed FastAPI surface (class FastAPIQuota) and the legacy kwargs
surface (class QuotaAPIController).  The external collaborators that the
module imports but whose code is not part of this fragment (the quotas
manager, the schema models of galaxy.quota._schema, util.string_as_bool
and the admin gate) are modelled from the specification, each with a doc
comment saying so.  Every controller operation is embedded as a pure
function that returns the response (a result or an error) together with
the list of manager calls it performed, so that claims about delegation,
authorization gating and error propagation can be stated directly.
-/

namespace Galaxy

/-- Error taxonomy of the controller layer, from the spec's section 7:
authorization failure, not-found, validation failure (with the offending
field) and conflict. -/
inductive Err where
  | authorization
  | notFound
  | validation (field : String)
  | conflict
deriving DecidableEq, Repr

/-- A JSON-ish primitive value appearing in a request payload dict. -/
inductive PVal where
  | str (s : String)
  | int (n : Int)
  | bool (b : Bool)
deriving DecidableEq, Repr

/-- A raw request payload: a dict from field names to primitive values. -/
abbrev Payload := List (String × PVal)

/-- The extra keyword arguments of a legacy request (the kwd dict): each
entry maps a key to a dict value; the only entry any operation reads is
the optional dict under the key payload. -/
abbrev Kwd := List (String × Payload)

/-- The per-request context object (trans).  Only the field the
controller consults is modelled: whether the caller is an administrator. -/
structure Trans where
  user_is_admin : Bool
deriving DecidableEq, Repr

/-- The lower-casing of a string (str.lower() of Python), written over
the character list so that it evaluates by kernel reduction. -/
def strToLower (s : String) : String :=
  ⟨s.data.map Char.toLower⟩

/-- Modelled from the spec: util.string_as_bool, used by the legacy
surface to coerce the deleted filter string; conventional truthy-string
rules, case-insensitive true or 1 yield true, anything else false. -/
def string_as_bool (s : String) : Bool :=
  strToLower s == "true" || s == "1"

/-- Read an optional string field of a payload dict; a present value of
the wrong type is a validation failure naming the field. -/
def optStrField (p : Payload) (k : String) : Except Err (Option String) :=
  match p.lookup k with
  | none => .ok none
  | some (.str s) => .ok (some s)
  | some _ => .error (.validation k)

/-- Read a required string field of a payload dict; absence or a value
of the wrong type is a validation failure naming the field. -/
def reqStrField (p : Payload) (k : String) : Except Err String :=
  match p.lookup k with
  | some (.str s) => .ok s
  | some _ => .error (.validation k)
  | none => .error (.validation k)

/-- Read an optional boolean field of a payload dict. -/
def optBoolField (p : Payload) (k : String) : Except Err (Option Bool) :=
  match p.lookup k with
  | none => .ok none
  | some (.bool b) => .ok (some b)
  | some _ => .error (.validation k)

/-- Modelled from the spec: CreateQuotaParams of galaxy.quota._schema
(not part of this fragment); the quota name is a required field, the
remaining modelled fields are optional. -/
structure CreateQuotaParams where
  name : String
  description : Option String := none
  amount : Option String := none
deriving DecidableEq, Repr

/-- Modelled from the spec: the pydantic construction
CreateQuotaParams(**payload) performed by the legacy create operation;
a malformed payload (missing or ill-typed required field) raises
ValidationError. -/
def CreateQuotaParams.fromPayload (p : Payload) : Except Err CreateQuotaParams := do
  let n ← reqStrField p "name"
  let d ← optStrField p "description"
  let a ← optStrField p "amount"
  .ok ⟨n, d, a⟩

/-- Modelled from the spec: UpdateQuotaParams of galaxy.quota._schema
(not part of this fragment); every modelled field is optional. -/
structure UpdateQuotaParams where
  name : Option String := none
  description : Option String := none
  amount : Option String := none
deriving DecidableEq, Repr

/-- Modelled from the spec: the pydantic construction
UpdateQuotaParams(**payload) performed by the legacy update operation;
an ill-typed field raises ValidationError. -/
def UpdateQuotaParams.fromPayload (p : Payload) : Except Err UpdateQuotaParams := do
  let n ← optStrField p "name"
  let d ← optStrField p "description"
  let a ← optStrField p "amount"
  .ok ⟨n, d, a⟩

/-- Modelled from the spec: DeleteQuotaPayload of galaxy.quota._schema
(not part of this fragment); an optional payload for delete whose only
modelled field is an optional purge flag defaulting to false. -/
structure DeleteQuotaPayload where
  purge : Bool := false
deriving DecidableEq, Repr

/-- Modelled from the spec: the pydantic construction
DeleteQuotaPayload(**d) performed by the legacy delete operation on the
dict d taken from the kwargs; an ill-typed field raises ValidationError,
an empty dict yields the default payload. -/
def DeleteQuotaPayload.fromPayload (p : Payload) : Except Err DeleteQuotaPayload := do
  let pu ← optBoolField p "purge"
  .ok ⟨pu.getD false⟩

/-- The dict the legacy delete operation reads from the kwargs:
kwd.get(payload key, empty dict). -/
def kwdPayload (kwd : Kwd) : Payload :=
  (kwd.lookup "payload").getD []

/-- A quota row as held by the external persistence layer: an opaque
encoded identifier, a name and the soft-delete flag. -/
structure Quota where
  id : String
  name : String
  deleted : Bool
deriving DecidableEq, Repr

/-- The listing projection of a quota (QuotaSummary of the schema). -/
structure QuotaSummary where
  id : String
  name : String
  deleted : Bool
deriving DecidableEq, Repr

/-- The single-item projection of a quota (QuotaDetails of the schema). -/
structure QuotaDetails where
  id : String
  name : String
  deleted : Bool
deriving DecidableEq, Repr

/-- The result of creating a quota (CreateQuotaResult of the schema). -/
structure CreateQuotaResult where
  id : String
  name : String
deriving DecidableEq, Repr

def Quota.toSummary (q : Quota) : QuotaSummary := ⟨q.id, q.name, q.deleted⟩

def Quota.toDetails (q : Quota) : QuotaDetails := ⟨q.id, q.name, q.deleted⟩

/-- One call made against the quota manager collaborator, recording the
method and the exact arguments the controller passed (besides trans). -/
inductive ManagerCall where
  | index (deleted : Bool)
  | show' (id : String) (deleted : Bool)
  | create (params : CreateQuotaParams)
  | update (id : String) (params : UpdateQuotaParams)
  | delete (id : String) (payload : Option DeleteQuotaPayload)
  | undelete (id : String)
deriving DecidableEq, Repr

/-- Modelled from the spec: the interface of the QuotasManager
collaborator (galaxy.managers.quotas, not part of this fragment).  Each
method may fail with an error of the taxonomy; delete receives the
payload as optional because the typed surface passes it through
unparsed.  The name show of the source is written show' because show is
reserved in Lean. -/
structure QuotasManager where
  index : Trans → Bool → Except Err (List QuotaSummary)
  show' : Trans → String → Bool → Except Err QuotaDetails
  create : Trans → CreateQuotaParams → Except Err CreateQuotaResult
  update : Trans → String → UpdateQuotaParams → Except Err String
  delete : Trans → String → Option DeleteQuotaPayload → Except Err String
  undelete : Trans → String → Except Err String

/-- Modelled from the spec: the deleted parameter of the manager's index
and show methods defaults to false (the active listing/view); the typed
surface relies on this default when it calls the manager without the
flag. -/
def managerDeletedDefault : Bool := false

/-- The outcome of one controller operation: the response (result or
propagated error) paired with the list of manager calls performed. -/
abbrev Outcome (ρ : Type) := Except Err ρ × List ManagerCall

/-- Modelled from the spec: the admin gate (web.require_admin on the
legacy surface, the AdminUserRequired dependency on the typed surface)
evaluated before the operation body: a caller without administrator
privilege receives the authorization failure and the body never runs. -/
def adminGate (trans : Trans) (body : Outcome ρ) : Outcome ρ :=
  if trans.user_is_admin then body else (.error .authorization, [])

/-- FastAPIQuota.index: GET /api/quotas; delegates to manager.index with
the manager's default deleted flag. -/
def FastAPIQuota.index (m : QuotasManager) (trans : Trans) :
    Outcome (List QuotaSummary) :=
  adminGate trans
    (m.index trans managerDeletedDefault,
     [ManagerCall.index managerDeletedDefault])

/-- FastAPIQuota.index_deleted: GET /api/quotas/deleted; delegates to
manager.index with deleted=True. -/
def FastAPIQuota.index_deleted (m : QuotasManager) (trans : Trans) :
    Outcome (List QuotaSummary) :=
  adminGate trans (m.index trans true, [ManagerCall.index true])

/-- FastAPIQuota.show: GET /api/quotas/id; delegates to manager.show
with the manager's default deleted flag. -/
def FastAPIQuota.show' (m : QuotasManager) (trans : Trans) (id : String) :
    Outcome QuotaDetails :=
  adminGate trans
    (m.show' trans id managerDeletedDefault,
     [ManagerCall.show' id managerDeletedDefault])

/-- FastAPIQuota.show_deleted: GET /api/quotas/deleted/id; delegates to
manager.show with deleted=True. -/
def FastAPIQuota.show_deleted (m : QuotasManager) (trans : Trans)
    (id : String) : Outcome QuotaDetails :=
  adminGate trans (m.show' trans id true, [ManagerCall.show' id true])

/-- FastAPIQuota.create: POST /api/quotas; the framework has already
parsed the body into CreateQuotaParams; delegates to manager.create. -/
def FastAPIQuota.create (m : QuotasManager) (trans : Trans)
    (payload : CreateQuotaParams) : Outcome CreateQuotaResult :=
  adminGate trans (m.create trans payload, [ManagerCall.create payload])

/-- FastAPIQuota.update: PUT /api/quotas/id; delegates to
manager.update with the id and the parsed params. -/
def FastAPIQuota.update (m : QuotasManager) (trans : Trans) (id : String)
    (payload : UpdateQuotaParams) : Outcome String :=
  adminGate trans
    (m.update trans id payload, [ManagerCall.update id payload])

/-- FastAPIQuota.delete: DELETE /api/quotas/id; the body is optional
(Body(None)), so with no body the handler receives none and passes it to
manager.delete as is. -/
def FastAPIQuota.delete (m : QuotasManager) (trans : Trans) (id : String)
    (payload : Option DeleteQuotaPayload := none) : Outcome String :=
  adminGate trans (m.delete trans id payload, [ManagerCall.delete id payload])

/-- FastAPIQuota.undelete: POST /api/quotas/deleted/id/undelete;
delegates to manager.undelete. -/
def FastAPIQuota.undelete (m : QuotasManager) (trans : Trans)
    (id : String) : Outcome String :=
  adminGate trans (m.undelete trans id, [ManagerCall.undelete id])

/-- QuotaAPIController.index: legacy GET /api/quotas and
/api/quotas/deleted; coerces the deleted string (default False) with
string_as_bool and delegates to manager.index. -/
def QuotaAPIController.index (m : QuotasManager) (trans : Trans)
    (deleted : String := "False") (kwd : Kwd := []) :
    Outcome (List QuotaSummary) :=
  adminGate trans
    (m.index trans (string_as_bool deleted),
     [ManagerCall.index (string_as_bool deleted)])

/-- QuotaAPIController.show: legacy GET /api/quotas/id and
/api/quotas/deleted/id; coerces the deleted string (default False) with
string_as_bool and delegates to manager.show. -/
def QuotaAPIController.show' (m : QuotasManager) (trans : Trans)
    (id : String) (deleted : String := "False") (kwd : Kwd := []) :
    Outcome QuotaDetails :=
  adminGate trans
    (m.show' trans id (string_as_bool deleted),
     [ManagerCall.show' id (string_as_bool deleted)])

/-- QuotaAPIController.create: legacy POST /api/quotas; constructs
CreateQuotaParams(**payload) and delegates to manager.create; a
validation failure of the construction propagates and the manager is
not called. -/
def QuotaAPIController.create (m : QuotasManager) (trans : Trans)
    (payload : Payload) (kwd : Kwd := []) : Outcome CreateQuotaResult :=
  adminGate trans
    (match CreateQuotaParams.fromPayload payload with
     | .error e => (.error e, [])
     | .ok params => (m.create trans params, [ManagerCall.create params]))

/-- QuotaAPIController.update: legacy PUT /api/quotas/id; constructs
UpdateQuotaParams(**payload) and delegates to manager.update; a
validation failure of the construction propagates and the manager is
not called. -/
def QuotaAPIController.update (m : QuotasManager) (trans : Trans)
    (id : String) (payload : Payload) (kwd : Kwd := []) : Outcome String :=
  adminGate trans
    (match UpdateQuotaParams.fromPayload payload with
     | .error e => (.error e, [])
     | .ok params => (m.update trans id params, [ManagerCall.update id params]))

/-- QuotaAPIController.delete: legacy DELETE /api/quotas/id; builds
DeleteQuotaPayload(**kwd.get(payload key, empty dict)) and delegates to
manager.delete with that payload (always a constructed payload, never
an absent one). -/
def QuotaAPIController.delete (m : QuotasManager) (trans : Trans)
    (id : String) (kwd : Kwd := []) : Outcome String :=
  adminGate trans
    (match DeleteQuotaPayload.fromPayload (kwdPayload kwd) with
     | .error e => (.error e, [])
     | .ok payload =>
       (m.delete trans id (some payload), [ManagerCall.delete id (some payload)]))

/-- QuotaAPIController.undelete: legacy POST
/api/quotas/deleted/id/undelete; delegates to manager.undelete. -/
def QuotaAPIController.undelete (m : QuotasManager) (trans : Trans)
    (id : String) (kwd : Kwd := []) : Outcome String :=
  adminGate trans (m.undelete trans id, [ManagerCall.undelete id])

/-- Find the quota with a given encoded id in a store. -/
def findQuota (store : List Quota) (id : String) : Option Quota :=
  store.find? (fun q => q.id == id)

/-- Modelled from the spec: a reference QuotasManager over an in-memory
store, realizing the contract the spec states for the external manager
(galaxy.managers.quotas, not part of this fragment): index lists exactly
the quotas whose deleted flag matches the filter; show finds the quota
by id in the requested state and fails with NotFound otherwise; update
and delete fail with NotFound on an unknown id; undelete fails with
ConflictError on a quota not currently deleted.  It instantiates the
manager-contract hypotheses of the theorems below. -/
def refManager (store : List Quota) : QuotasManager where
  index := fun _ d =>
    .ok ((store.filter (fun q => q.deleted == d)).map Quota.toSummary)
  show' := fun _ id d =>
    match findQuota store id with
    | some q => if q.deleted == d then .ok q.toDetails else .error .notFound
    | none => .error .notFound
  create := fun _ p => .ok ⟨"new", p.name⟩
  update := fun _ id _ =>
    match findQuota store id with
    | some _ => .ok "updated"
    | none => .error .notFound
  delete := fun _ id _ =>
    match findQuota store id with
    | some q => if q.deleted then .error .conflict else .ok "deleted"
    | none => .error .notFound
  undelete := fun _ id =>
    match findQuota store id with
    | some q => if q.deleted then .ok "undeleted" else .error .conflict
    | none => .error .notFound

/-- A small concrete store: one active quota and one deleted quota. -/
def sampleStore : List Quota :=
  [⟨"q1", "alpha", false⟩, ⟨"q2", "beta", true⟩]

/-- A manager that reports whether the delete payload argument was
supplied, separating an absent payload from a constructed default
one. -/
def probeManager : QuotasManager :=
  { refManager sampleStore with
    delete := fun _ _ payload =>
      match payload with
      | none => .ok "absent payload"
      | some _ => .ok "constructed payload" }

end Galaxy

deriving instance DecidableEq for Except

namespace Galaxy

/-- The reference manager satisfies the listing contract: every summary
it returns for a deleted filter carries that very flag. -/
theorem refManager_index_filtered (store : List Quota) (trans : Trans) :
    ∀ d l, (refManager store).index trans d = .ok l →
      ∀ q ∈ l, q.deleted = d := by
  intro d l h q hq
  have hl : (store.filter (fun q => q.deleted == d)).map Quota.toSummary = l := by
    simpa [refManager] using h
  subst hl
  simp only [List.mem_map, List.mem_filter] at hq
  obtain ⟨q0, ⟨_, hq0d⟩, rfl⟩ := hq
  simpa [Quota.toSummary] using hq0d

/-- C1: every operation on both surfaces, invoked by a caller without
administrator privilege, returns the authorization failure and performs
no manager call, whatever the remaining arguments (including malformed
payloads): the admin gate is evaluated before any parameter coercion or
manager call. -/
theorem nonadmin_rejected_without_manager_call
    (m : QuotasManager) (trans : Trans) (id s : String)
    (cp : CreateQuotaParams) (up : UpdateQuotaParams)
    (dp : Option DeleteQuotaPayload) (p : Payload) (kwd : Kwd)
    (h : trans.user_is_admin = false) :
    FastAPIQuota.index m trans = (.error .authorization, []) ∧
    FastAPIQuota.index_deleted m trans = (.error .authorization, []) ∧
    FastAPIQuota.show' m trans id = (.error .authorization, []) ∧
    FastAPIQuota.show_deleted m trans id = (.error .authorization, []) ∧
    FastAPIQuota.create m trans cp = (.error .authorization, []) ∧
    FastAPIQuota.update m trans id up = (.error .authorization, []) ∧
    FastAPIQuota.delete m trans id dp = (.error .authorization, []) ∧
    FastAPIQuota.undelete m trans id = (.error .authorization, []) ∧
    QuotaAPIController.index m trans s kwd = (.error .authorization, []) ∧
    QuotaAPIController.show' m trans id s kwd = (.error .authorization, []) ∧
    QuotaAPIController.create m trans p kwd = (.error .authorization, []) ∧
    QuotaAPIController.update m trans id p kwd = (.error .authorization, []) ∧
    QuotaAPIController.delete m trans id kwd = (.error .authorization, []) ∧
    QuotaAPIController.undelete m trans id kwd = (.error .authorization, []) := by
  simp [FastAPIQuota.index, FastAPIQuota.index_deleted, FastAPIQuota.show',
    FastAPIQuota.show_deleted, FastAPIQuota.create, FastAPIQuota.update,
    FastAPIQuota.delete, FastAPIQuota.undelete, QuotaAPIController.index,
    QuotaAPIController.show', QuotaAPIController.create,
    QuotaAPIController.update, QuotaAPIController.delete,
    QuotaAPIController.undelete, adminGate, h]

/-- C1 witness: the non-administrator rejection at a concrete input. -/
theorem nonadmin_rejected_without_manager_call_witness :
    FastAPIQuota.undelete (refManager sampleStore) ⟨false⟩ "q1" =
      (.error .authorization, []) :=
  (nonadmin_rejected_without_manager_call (refManager sampleStore) ⟨false⟩
    "q1" "True" ⟨"n", none, none⟩ {} none [] [] rfl).2.2.2.2.2.2.2.1

/-- C2 counterexample: on the typed surface a delete with no request
body delegates the absent payload to the manager, not the default empty
DeleteQuotaPayload. -/
theorem typed_delete_bodyless_call_not_default_payload :
    (FastAPIQuota.delete (refManager sampleStore) ⟨true⟩ "q1" none).2 ≠
      [ManagerCall.delete "q1" (some {})] := by
  decide

/-- C2 amended: on the legacy surface a delete with no payload entry in
the kwargs delegates the default empty DeleteQuotaPayload to the manager
and has exactly the outcome of a delete with an explicit empty payload
dict; on the typed surface a bodyless delete passes the absent payload
through to the manager, and its response agrees with that of an explicit
default payload exactly when the manager treats the absent payload as
the default empty one. -/
theorem delete_defaults_empty_payload
    (m : QuotasManager) (trans : Trans) (id : String) (kwd : Kwd)
    (hk : kwd.lookup "payload" = none)
    (hm : m.delete trans id none = m.delete trans id (some {})) :
    QuotaAPIController.delete m trans id kwd =
      QuotaAPIController.delete m trans id [("payload", [])] ∧
    (trans.user_is_admin = true →
      (QuotaAPIController.delete m trans id kwd).2 =
        [ManagerCall.delete id (some {})]) ∧
    (FastAPIQuota.delete m trans id none).1 =
      (FastAPIQuota.delete m trans id (some {})).1 := by
  have hkp : kwdPayload kwd = [] := by simp [kwdPayload, hk]
  have hkp2 : kwdPayload [("payload", [])] = [] := rfl
  have hfp : DeleteQuotaPayload.fromPayload [] = .ok {} := rfl
  refine ⟨?_, ?_, ?_⟩
  · simp [QuotaAPIController.delete, hkp, hkp2]
  · intro ha
    simp [QuotaAPIController.delete, adminGate, ha, hkp, hfp]
  · cases ha : trans.user_is_admin <;>
      simp [FastAPIQuota.delete, adminGate, ha, hm]

/-- C2 amended witness: bodyless legacy delete at a concrete input. -/
theorem delete_defaults_empty_payload_witness :
    QuotaAPIController.delete (refManager sampleStore) ⟨true⟩ "q1" [] =
      QuotaAPIController.delete (refManager sampleStore) ⟨true⟩ "q1"
        [("payload", [])] :=
  (delete_defaults_empty_payload (refManager sampleStore) ⟨true⟩ "q1" []
    rfl rfl).1

/-- C3 counterexample: on the corresponding bodyless delete input the
two surfaces pass different payload arguments to the manager (absent
versus constructed default), and a manager separating the two returns
different results, so the surfaces are not behaviorally equivalent on
that input. -/
theorem surfaces_differ_on_bodyless_delete :
    (FastAPIQuota.delete probeManager ⟨true⟩ "q1" none).2 ≠
      (QuotaAPIController.delete probeManager ⟨true⟩ "q1" []).2 ∧
    (FastAPIQuota.delete probeManager ⟨true⟩ "q1" none).1 ≠
      (QuotaAPIController.delete probeManager ⟨true⟩ "q1" []).1 := by
  constructor <;> decide

/-- C3 amended: on every corresponding input where the delete payload is
actually supplied (and for all inputs of the other seven operations),
the two surfaces make the identical manager call and return its result,
so they are behaviorally equivalent there; on a bodyless delete the
typed surface passes an absent payload where the legacy surface passes
the constructed default one. -/
theorem surfaces_agree_on_corresponding_inputs
    (m : QuotasManager) (trans : Trans) (id s : String) (p : Payload)
    (cp : CreateQuotaParams) (up : UpdateQuotaParams)
    (dp : DeleteQuotaPayload) (kwd : Kwd) :
    (string_as_bool s = false →
      QuotaAPIController.index m trans s kwd = FastAPIQuota.index m trans) ∧
    (string_as_bool s = true →
      QuotaAPIController.index m trans s kwd =
        FastAPIQuota.index_deleted m trans) ∧
    (string_as_bool s = false →
      QuotaAPIController.show' m trans id s kwd =
        FastAPIQuota.show' m trans id) ∧
    (string_as_bool s = true →
      QuotaAPIController.show' m trans id s kwd =
        FastAPIQuota.show_deleted m trans id) ∧
    (CreateQuotaParams.fromPayload p = .ok cp →
      QuotaAPIController.create m trans p kwd =
        FastAPIQuota.create m trans cp) ∧
    (UpdateQuotaParams.fromPayload p = .ok up →
      QuotaAPIController.update m trans id p kwd =
        FastAPIQuota.update m trans id up) ∧
    (DeleteQuotaPayload.fromPayload (kwdPayload kwd) = .ok dp →
      QuotaAPIController.delete m trans id kwd =
        FastAPIQuota.delete m trans id (some dp)) ∧
    QuotaAPIController.undelete m trans id kwd =
      FastAPIQuota.undelete m trans id := by
  refine ⟨?_, ?_, ?_, ?_, ?_, ?_, ?_, rfl⟩
  · intro hs
    simp [QuotaAPIController.index, FastAPIQuota.index,
      managerDeletedDefault, hs]
  · intro hs
    simp [QuotaAPIController.index, FastAPIQuota.index_deleted, hs]
  · intro hs
    simp [QuotaAPIController.show', FastAPIQuota.show',
      managerDeletedDefault, hs]
  · intro hs
    simp [QuotaAPIController.show', FastAPIQuota.show_deleted, hs]
  · intro hp
    simp [QuotaAPIController.create, FastAPIQuota.create, hp]
  · intro hp
    simp [QuotaAPIController.update, FastAPIQuota.update, hp]
  · intro hp
    simp [QuotaAPIController.delete, FastAPIQuota.delete, hp]

/-- C3 amended witness: legacy and typed create agree at a concrete
valid payload. -/
theorem surfaces_agree_on_corresponding_inputs_witness :
    QuotaAPIController.create (refManager sampleStore) ⟨true⟩
        [("name", PVal.str "gamma")] [] =
      FastAPIQuota.create (refManager sampleStore) ⟨true⟩
        ⟨"gamma", none, none⟩ :=
  (surfaces_agree_on_corresponding_inputs (refManager sampleStore) ⟨true⟩
    "q1" "False" [("name", PVal.str "gamma")] ⟨"gamma", none, none⟩ {} {}
    []).2.2.2.2.1 rfl

/-- C4: the legacy surface coerces the deleted string of index and show
with truthy-string rules: any casing of true and the string 1 yield
true (the deleted listing/view), every other string (among them False,
false, the empty string and the absent-parameter default) yields false
(the active listing/view), and the coerced flag is exactly what is
delegated to the manager; generic string truthiness is not used. -/
theorem legacy_deleted_string_coercion
    (m : QuotasManager) (trans : Trans) (id s : String) (kwd : Kwd)
    (h : trans.user_is_admin = true) :
    (QuotaAPIController.index m trans s kwd).2 =
      [ManagerCall.index (string_as_bool s)] ∧
    (QuotaAPIController.show' m trans id s kwd).2 =
      [ManagerCall.show' id (string_as_bool s)] ∧
    (QuotaAPIController.index m trans).2 = [ManagerCall.index false] ∧
    (strToLower s = "true" → string_as_bool s = true) ∧
    string_as_bool "1" = true ∧
    (strToLower s ≠ "true" → s ≠ "1" → string_as_bool s = false) ∧
    string_as_bool "True" = true ∧
    string_as_bool "true" = true ∧
    string_as_bool "TRUE" = true ∧
    string_as_bool "False" = false ∧
    string_as_bool "false" = false ∧
    string_as_bool "" = false := by
  refine ⟨by simp [QuotaAPIController.index, adminGate, h],
          by simp [QuotaAPIController.show', adminGate, h],
          by (simp [QuotaAPIController.index, adminGate, h]; decide),
          ?_, by decide, ?_, by decide, by decide, by decide, by decide,
          by decide, by decide⟩
  · intro hs
    simp [string_as_bool, hs]
  · intro h1 h2
    simp only [string_as_bool, Bool.or_eq_false_iff, beq_eq_false_iff_ne,
      ne_eq]
    exact ⟨h1, h2⟩

/-- C4 witness: the coercion at a concrete non-truthy string. -/
theorem legacy_deleted_string_coercion_witness :
    string_as_bool "x" = false :=
  ((legacy_deleted_string_coercion (refManager sampleStore) ⟨true⟩ "q1" "x"
    [] rfl).2.2.2.2.2.1) (by decide) (by decide)

/-- C5: both surfaces delegate the listing to the manager with the
matching deleted flag (false for the active listing, true for the
deleted one, the coerced string on the legacy surface), so under the
manager contract that a listing only holds quotas whose deleted flag
equals the filter, the active listing never includes a deleted quota and
the deleted listing never includes an active one. -/
theorem index_delegates_matching_deleted_flag
    (m : QuotasManager) (trans : Trans) (s : String) (kwd : Kwd)
    (l : List QuotaSummary)
    (h : trans.user_is_admin = true)
    (hm : ∀ d l', m.index trans d = .ok l' → ∀ q ∈ l', q.deleted = d) :
    (FastAPIQuota.index m trans).2 = [ManagerCall.index false] ∧
    (FastAPIQuota.index_deleted m trans).2 = [ManagerCall.index true] ∧
    (QuotaAPIController.index m trans s kwd).2 =
      [ManagerCall.index (string_as_bool s)] ∧
    ((FastAPIQuota.index m trans).1 = .ok l → ∀ q ∈ l, q.deleted = false) ∧
    ((FastAPIQuota.index_deleted m trans).1 = .ok l →
      ∀ q ∈ l, q.deleted = true) ∧
    ((QuotaAPIController.index m trans s kwd).1 = .ok l →
      ∀ q ∈ l, q.deleted = string_as_bool s) := by
  refine ⟨by simp [FastAPIQuota.index, adminGate, managerDeletedDefault, h],
          by simp [FastAPIQuota.index_deleted, adminGate, h],
          by simp [QuotaAPIController.index, adminGate, h],
          ?_, ?_, ?_⟩
  · intro hok
    exact hm false l (by
      simpa [FastAPIQuota.index, adminGate, managerDeletedDefault, h]
        using hok)
  · intro hok
    exact hm true l (by
      simpa [FastAPIQuota.index_deleted, adminGate, h] using hok)
  · intro hok
    exact hm (string_as_bool s) l (by
      simpa [QuotaAPIController.index, adminGate, h] using hok)

/-- C5 witness: the active listing of the reference manager over the
sample store holds only quotas with deleted false. -/
theorem index_delegates_matching_deleted_flag_witness :
    (Quota.toSummary ⟨"q1", "alpha", false⟩).deleted = false :=
  (index_delegates_matching_deleted_flag (refManager sampleStore) ⟨true⟩
    "False" [] [Quota.toSummary ⟨"q1", "alpha", false⟩] rfl
    (refManager_index_filtered sampleStore ⟨true⟩)).2.2.2.1 rfl
    (Quota.toSummary ⟨"q1", "alpha", false⟩) (by simp)

/-- C6: show-active delegates to the manager with deleted false,
show-deleted with deleted true and the legacy show with the coerced
flag, each returning the manager's answer unchanged; in particular the
NotFound the manager's contract yields for an id in the other state
propagates unchanged through the controller. -/
theorem show_delegates_matching_deleted_flag
    (m : QuotasManager) (trans : Trans) (id s : String) (kwd : Kwd)
    (e : Err)
    (h : trans.user_is_admin = true) :
    (FastAPIQuota.show' m trans id).2 = [ManagerCall.show' id false] ∧
    (FastAPIQuota.show_deleted m trans id).2 =
      [ManagerCall.show' id true] ∧
    (QuotaAPIController.show' m trans id s kwd).2 =
      [ManagerCall.show' id (string_as_bool s)] ∧
    (FastAPIQuota.show' m trans id).1 = m.show' trans id false ∧
    (FastAPIQuota.show_deleted m trans id).1 = m.show' trans id true ∧
    (QuotaAPIController.show' m trans id s kwd).1 =
      m.show' trans id (string_as_bool s) ∧
    (m.show' trans id false = .error e →
      (FastAPIQuota.show' m trans id).1 = .error e) ∧
    (m.show' trans id true = .error e →
      (FastAPIQuota.show_deleted m trans id).1 = .error e) := by
  refine ⟨by simp [FastAPIQuota.show', adminGate, managerDeletedDefault, h],
          by simp [FastAPIQuota.show_deleted, adminGate, h],
          by simp [QuotaAPIController.show', adminGate, h],
          by simp [FastAPIQuota.show', adminGate, managerDeletedDefault, h],
          by simp [FastAPIQuota.show_deleted, adminGate, h],
          by simp [QuotaAPIController.show', adminGate, h],
          ?_, ?_⟩
  · intro he
    simp [FastAPIQuota.show', adminGate, managerDeletedDefault, h, he]
  · intro he
    simp [FastAPIQuota.show_deleted, adminGate, h, he]

/-- C6 witness: show-active on the deleted sample quota's id yields
NotFound through the controller. -/
theorem show_delegates_matching_deleted_flag_witness :
    (FastAPIQuota.show' (refManager sampleStore) ⟨true⟩ "q2").1 =
      .error .notFound :=
  (show_delegates_matching_deleted_flag (refManager sampleStore) ⟨true⟩
    "q2" "False" [] .notFound rfl).2.2.2.2.2.2.1 rfl

/-- C7: every id-taking operation on both surfaces passes the encoded
identifier from the path to the manager exactly as received, with no
conversion or decoding. -/
theorem id_passed_through_unchanged
    (m : QuotasManager) (trans : Trans) (id s : String)
    (up : UpdateQuotaParams) (dp : Option DeleteQuotaPayload)
    (p : Payload) (pl : DeleteQuotaPayload) (kwd : Kwd)
    (h : trans.user_is_admin = true) :
    (FastAPIQuota.show' m trans id).2 = [ManagerCall.show' id false] ∧
    (FastAPIQuota.show_deleted m trans id).2 =
      [ManagerCall.show' id true] ∧
    (FastAPIQuota.update m trans id up).2 = [ManagerCall.update id up] ∧
    (FastAPIQuota.delete m trans id dp).2 = [ManagerCall.delete id dp] ∧
    (FastAPIQuota.undelete m trans id).2 = [ManagerCall.undelete id] ∧
    (QuotaAPIController.show' m trans id s kwd).2 =
      [ManagerCall.show' id (string_as_bool s)] ∧
    (UpdateQuotaParams.fromPayload p = .ok up →
      (QuotaAPIController.update m trans id p kwd).2 =
        [ManagerCall.update id up]) ∧
    (DeleteQuotaPayload.fromPayload (kwdPayload kwd) = .ok pl →
      (QuotaAPIController.delete m trans id kwd).2 =
        [ManagerCall.delete id (some pl)]) ∧
    (QuotaAPIController.undelete m trans id kwd).2 =
      [ManagerCall.undelete id] := by
  refine ⟨by simp [FastAPIQuota.show', adminGate, managerDeletedDefault, h],
          by simp [FastAPIQuota.show_deleted, adminGate, h],
          by simp [FastAPIQuota.update, adminGate, h],
          by simp [FastAPIQuota.delete, adminGate, h],
          by simp [FastAPIQuota.undelete, adminGate, h],
          by simp [QuotaAPIController.show', adminGate, h],
          ?_, ?_,
          by simp [QuotaAPIController.undelete, adminGate, h]⟩
  · intro hp
    simp [QuotaAPIController.update, adminGate, h, hp]
  · intro hp
    simp [QuotaAPIController.delete, adminGate, h, hp]

/-- C7 witness: the identifier reaches the manager unchanged at a
concrete input. -/
theorem id_passed_through_unchanged_witness :
    (FastAPIQuota.undelete (refManager sampleStore) ⟨true⟩
      "F/abc123==").2 = [ManagerCall.undelete "F/abc123=="] :=
  (id_passed_through_unchanged (refManager sampleStore) ⟨true⟩
    "F/abc123==" "False" {} none [] {} [] rfl).2.2.2.2.1

/-- C8: the controller performs no error recovery: every operation on
either surface returns the manager's answer unchanged (whatever it is,
an error included), and a coercion failure of the legacy payload
construction propagates exactly as raised. -/
theorem errors_propagate_unchanged
    (m : QuotasManager) (trans : Trans) (id s : String)
    (cp : CreateQuotaParams) (up : UpdateQuotaParams)
    (dp : Option DeleteQuotaPayload) (p : Payload)
    (pl : DeleteQuotaPayload) (kwd : Kwd) (e : Err)
    (h : trans.user_is_admin = true) :
    (FastAPIQuota.index m trans).1 = m.index trans false ∧
    (FastAPIQuota.index_deleted m trans).1 = m.index trans true ∧
    (FastAPIQuota.show' m trans id).1 = m.show' trans id false ∧
    (FastAPIQuota.show_deleted m trans id).1 = m.show' trans id true ∧
    (FastAPIQuota.create m trans cp).1 = m.create trans cp ∧
    (FastAPIQuota.update m trans id up).1 = m.update trans id up ∧
    (FastAPIQuota.delete m trans id dp).1 = m.delete trans id dp ∧
    (FastAPIQuota.undelete m trans id).1 = m.undelete trans id ∧
    (QuotaAPIController.index m trans s kwd).1 =
      m.index trans (string_as_bool s) ∧
    (QuotaAPIController.show' m trans id s kwd).1 =
      m.show' trans id (string_as_bool s) ∧
    (CreateQuotaParams.fromPayload p = .ok cp →
      (QuotaAPIController.create m trans p kwd).1 = m.create trans cp) ∧
    (CreateQuotaParams.fromPayload p = .error e →
      (QuotaAPIController.create m trans p kwd).1 = .error e) ∧
    (UpdateQuotaParams.fromPayload p = .ok up →
      (QuotaAPIController.update m trans id p kwd).1 =
        m.update trans id up) ∧
    (UpdateQuotaParams.fromPayload p = .error e →
      (QuotaAPIController.update m trans id p kwd).1 = .error e) ∧
    (DeleteQuotaPayload.fromPayload (kwdPayload kwd) = .ok pl →
      (QuotaAPIController.delete m trans id kwd).1 =
        m.delete trans id (some pl)) ∧
    (DeleteQuotaPayload.fromPayload (kwdPayload kwd) = .error e →
      (QuotaAPIController.delete m trans id kwd).1 = .error e) ∧
    (QuotaAPIController.undelete m trans id kwd).1 = m.undelete trans id := by
  refine ⟨by simp [FastAPIQuota.index, adminGate, managerDeletedDefault, h],
          by simp [FastAPIQuota.index_deleted, adminGate, h],
          by simp [FastAPIQuota.show', adminGate, managerDeletedDefault, h],
          by simp [FastAPIQuota.show_deleted, adminGate, h],
          by simp [FastAPIQuota.create, adminGate, h],
          by simp [FastAPIQuota.update, adminGate, h],
          by simp [FastAPIQuota.delete, adminGate, h],
          by simp [FastAPIQuota.undelete, adminGate, h],
          by simp [QuotaAPIController.index, adminGate, h],
          by simp [QuotaAPIController.show', adminGate, h],
          ?_, ?_, ?_, ?_, ?_, ?_,
          by simp [QuotaAPIController.undelete, adminGate, h]⟩
  · intro hp
    simp [QuotaAPIController.create, adminGate, h, hp]
  · intro hp
    simp [QuotaAPIController.create, adminGate, h, hp]
  · intro hp
    simp [QuotaAPIController.update, adminGate, h, hp]
  · intro hp
    simp [QuotaAPIController.update, adminGate, h, hp]
  · intro hp
    simp [QuotaAPIController.delete, adminGate, h, hp]
  · intro hp
    simp [QuotaAPIController.delete, adminGate, h, hp]

/-- C8 witness: a NotFound of the manager passes through the legacy
update on an unknown id unchanged. -/
theorem errors_propagate_unchanged_witness :
    (QuotaAPIController.update (refManager sampleStore) ⟨true⟩ "zzz" []
      []).1 = .error .notFound :=
  Eq.trans
    ((errors_propagate_unchanged (refManager sampleStore) ⟨true⟩ "zzz"
      "False" ⟨"n", none, none⟩ {} none [] {} [] .notFound
      rfl).2.2.2.2.2.2.2.2.2.2.2.2.1 rfl)
    rfl

/-- C9: the legacy create and update construct the typed parameter
object from the raw payload dict before any manager interaction: on a
malformed payload the validation failure is the whole outcome and the
manager is never called, on a valid payload the manager receives
exactly the parsed params; the empty create payload is malformed, its
required name field missing. -/
theorem legacy_params_constructed_before_manager
    (m : QuotasManager) (trans : Trans) (id : String) (p : Payload)
    (cp : CreateQuotaParams) (up : UpdateQuotaParams) (kwd : Kwd)
    (e : Err)
    (h : trans.user_is_admin = true) :
    (CreateQuotaParams.fromPayload p = .error e →
      QuotaAPIController.create m trans p kwd = (.error e, [])) ∧
    (CreateQuotaParams.fromPayload p = .ok cp →
      QuotaAPIController.create m trans p kwd =
        (m.create trans cp, [ManagerCall.create cp])) ∧
    (UpdateQuotaParams.fromPayload p = .error e →
      QuotaAPIController.update m trans id p kwd = (.error e, [])) ∧
    (UpdateQuotaParams.fromPayload p = .ok up →
      QuotaAPIController.update m trans id p kwd =
        (m.update trans id up, [ManagerCall.update id up])) ∧
    CreateQuotaParams.fromPayload [] = .error (.validation "name") := by
  refine ⟨?_, ?_, ?_, ?_, rfl⟩
  · intro hp
    simp [QuotaAPIController.create, adminGate, h, hp]
  · intro hp
    simp [QuotaAPIController.create, adminGate, h, hp]
  · intro hp
    simp [QuotaAPIController.update, adminGate, h, hp]
  · intro hp
    simp [QuotaAPIController.update, adminGate, h, hp]

/-- C9 witness: the empty create payload yields the validation failure
with no manager call. -/
theorem legacy_params_constructed_before_manager_witness :
    QuotaAPIController.create (refManager sampleStore) ⟨true⟩ [] [] =
      (.error (.validation "name"), []) :=
  (legacy_params_constructed_before_manager (refManager sampleStore)
    ⟨true⟩ "q1" [] ⟨"n", none, none⟩ {} [] (.validation "name") rfl).1 rfl

/-- C10: the extra keyword arguments of a legacy request never reach
the manager: index, show, create, update and undelete are wholly
independent of them, and delete depends on them only through the
payload entry — two kwarg dicts agreeing on that entry give the
identical outcome. -/
theorem extra_kwargs_do_not_influence
    (m : QuotasManager) (trans : Trans) (id s : String) (p : Payload)
    (kwd kwd' : Kwd) :
    QuotaAPIController.index m trans s kwd =
      QuotaAPIController.index m trans s kwd' ∧
    QuotaAPIController.show' m trans id s kwd =
      QuotaAPIController.show' m trans id s kwd' ∧
    QuotaAPIController.create m trans p kwd =
      QuotaAPIController.create m trans p kwd' ∧
    QuotaAPIController.update m trans id p kwd =
      QuotaAPIController.update m trans id p kwd' ∧
    QuotaAPIController.undelete m trans id kwd =
      QuotaAPIController.undelete m trans id kwd' ∧
    (kwd.lookup "payload" = kwd'.lookup "payload" →
      QuotaAPIController.delete m trans id kwd =
        QuotaAPIController.delete m trans id kwd') := by
  refine ⟨rfl, rfl, rfl, rfl, rfl, ?_⟩
  intro hp
  simp [QuotaAPIController.delete, kwdPayload, hp]

/-- C10 witness: an unrelated extra kwarg leaves the legacy delete
outcome unchanged. -/
theorem extra_kwargs_do_not_influence_witness :
    QuotaAPIController.delete (refManager sampleStore) ⟨true⟩ "q1"
        [("verbose", [])] =
      QuotaAPIController.delete (refManager sampleStore) ⟨true⟩ "q1" [] :=
  (extra_kwargs_do_not_influence (refManager sampleStore) ⟨true⟩ "q1"
    "False" [] [("verbose", [])] []).2.2.2.2.2 rfl

end Galaxy
